import Mathlib

/-!
Verification of the pyairobotrest data normalization and validation core.

The repository ships `const.py`, its test suite and an example script; the
modules `models.py`, `client.py` and `exceptions.py` are declared and
exercised by the tests but their sources are not present.  Following the
specification (sections 3, 4, 6, 7 and 8 of `spec.md`), the decode/encode
and validation core is modelled here as pure Lean functions; every
definition whose Python source is missing carries a doc comment starting
with `Modelled from the spec:`.

Raw wire values are JSON-like: integers, numeric strings, null, or a
one-element list of flag mappings.  Typed temperature-like values are
modelled as rationals carrying the exact value of the IEEE-754 double the
Python code would hold; `fl` below is round-to-nearest-even double rounding
(exact on the normal range used by the device protocol), so the
tenths-scaling claims are settled against genuine binary floating-point
semantics rather than idealized rationals.
-/

deriving instance DecidableEq for Except

namespace Airobot

/-- Primitive wire value of a single JSON field: integer, string, or null. -/
inductive Prim where
  | pint : Int → Prim
  | pstr : String → Prim
  | pnone : Prim
deriving DecidableEq

/-- Decimal digit value of a character, `none` for non-digits. -/
def digitVal (c : Char) : Option Nat :=
  if c.toNat ≥ 48 ∧ c.toNat ≤ 57 then some (c.toNat - 48) else none

/-- Accumulate decimal digits; `none` as soon as a non-digit appears. -/
def digitsToNatAux : List Char → Nat → Option Nat
  | [], acc => some acc
  | c :: cs, acc =>
    match digitVal c with
    | some d => digitsToNatAux cs (acc * 10 + d)
    | none => none

/-- Modelled from the spec: integer parsing of a numeric string as Python
`int(s)` does for the device firmware's plain decimal strings (optional
sign followed by at least one digit); `none` when unparsable. -/
def strToInt (s : String) : Option Int :=
  match s.data with
  | [] => none
  | '-' :: cs =>
    if cs = [] then none else (digitsToNatAux cs 0).map (fun n => -(n : Int))
  | '+' :: cs =>
    if cs = [] then none else (digitsToNatAux cs 0).map (fun n => (n : Int))
  | cs => (digitsToNatAux cs 0).map (fun n => (n : Int))

/-- Modelled from the spec: wire-value coercion (spec section 4.1) — a raw
field value arriving as a native integer or a numeric string is coerced to
an integer; `none` models the `MalformedValue` condition (non-numeric
string, null where a number is required). -/
def coerceInt : Prim → Option Int
  | .pint n => some n
  | .pstr s => strToInt s
  | .pnone => none

/-! ### IEEE-754 double rounding over ℚ

The Python core holds temperatures and scaled values in `float`.  We model
a float by the exact rational value of the IEEE-754 binary64 number and
implement correct round-to-nearest-even on the normal range (all values
used by the protocol are normal doubles far from overflow/underflow). -/

/-- Round the fraction `a / b` (with `b > 0`) to the nearest integer,
ties to even. -/
def rneInt (a b : Int) : Int :=
  let q := Int.fdiv a b
  let r := a - q * b
  if 2 * r < b then q
  else if b < 2 * r then q + 1
  else if q % 2 = 0 then q else q + 1

/-- Floor of the binary logarithm of `n` (for `1 ≤ n < 2 ^ 64`), by a
branch cascade on halved bit widths. -/
def blog (n : Nat) : Nat :=
  let a := if 2 ^ 32 ≤ n then 32 else 0
  let n1 := n / 2 ^ a
  let b := if 2 ^ 16 ≤ n1 then 16 else 0
  let n2 := n1 / 2 ^ b
  let c := if 2 ^ 8 ≤ n2 then 8 else 0
  let n3 := n2 / 2 ^ c
  let d := if 2 ^ 4 ≤ n3 then 4 else 0
  let n4 := n3 / 2 ^ d
  let e := if 2 ^ 2 ≤ n4 then 2 else 0
  let n5 := n4 / 2 ^ e
  let f := if 2 ≤ n5 then 1 else 0
  a + b + c + d + e + f

/-- Floor of the binary logarithm of a positive rational. -/
def floorLog2 (q : ℚ) : Int :=
  let a := q.num.toNat
  let b := q.den
  let d : Int := (blog a : Int) - (blog b : Int)
  if 0 ≤ d then (if b * 2 ^ d.toNat ≤ a then d else d - 1)
  else (if b ≤ a * 2 ^ (-d).toNat then d else d - 1)

/-- Round a positive rational to the nearest binary64 value (53-bit
significand), ties to even; exact for the normal range. -/
def flPos (q : ℚ) : ℚ :=
  let e := floorLog2 q
  let s := 52 - e
  if 0 ≤ s then
    let m := rneInt (q.num * ((2 ^ s.toNat : Nat) : Int)) (q.den : Int)
    Rat.divInt m ((2 ^ s.toNat : Nat) : Int)
  else
    let m := rneInt q.num ((q.den : Int) * ((2 ^ (-s).toNat : Nat) : Int))
    Rat.divInt (m * ((2 ^ (-s).toNat : Nat) : Int)) 1

/-- Round a rational to the nearest binary64 value (the value a Python
`float` computation would produce for the operations modelled here). -/
def fl (q : ℚ) : ℚ :=
  if q = 0 then 0 else if 0 < q then flPos q else -flPos (-q)

/-- Round a rational to the nearest integer, ties to even — the behavior of
Python's built-in `round`. -/
def rne (q : ℚ) : Int := rneInt q.num (q.den : Int)

/-- Modelled from the spec: tenths scaling on decode (spec section 4.3) —
a present raw integer in tenths of a unit becomes the floating-point value
`raw / 10` (binary64 division, correctly rounded). -/
def decodeTenths (k : Int) : ℚ := fl (Rat.divInt k 10)

/-- Multiply a binary64-valued rational by ten with binary64 rounding. -/
def mulTen (q : ℚ) : ℚ := fl (Rat.divInt (q.num * 10) (q.den : Int))

/-- Modelled from the spec: tenths scaling on encode (spec section 4.3) —
a typed floating-point value becomes the integer nearest `value * 10`
(binary64 product, then Python `round`). -/
def encodeTenths (q : ℚ) : Int := rne (mulTen q)

/-! ### Raw wire mappings -/

/-- Raw value of one field of an API response: a primitive, or the
one-element list of flag mappings used by STATUS_FLAGS / SETTING_FLAGS. -/
inductive RawValue where
  | prim : Prim → RawValue
  | flagList : List (List (String × Prim)) → RawValue
deriving DecidableEq

/-- A raw API response: an association list of field names to raw values
(the JSON object handed over by the transport collaborator). -/
abbrev RawMapping := List (String × RawValue)

/-- Primitive value of a field, `none` when the key is missing or holds a
flag list. -/
def getPrim (data : RawMapping) (k : String) : Option Prim :=
  match data.lookup k with
  | some (.prim p) => some p
  | _ => none

/-- Presence and coerced integer of a field: `none` when the key is absent,
`some none` when present but not coercible, `some (some n)` otherwise. -/
def rawIntView (data : RawMapping) (k : String) : Option (Option Int) :=
  (getPrim data k).map coerceInt

/-- String value of a field, `none` when missing or not a string. -/
def getStr (data : RawMapping) (k : String) : Option String :=
  match data.lookup k with
  | some (.prim (.pstr s)) => some s
  | _ => none

/-- Modelled from the spec: the single flag mapping inside the wrapping
one-element list (spec section 4.5); a missing key, an empty wrapping list
or a non-list value all yield the empty mapping (all flags default). -/
def getFlagMap (data : RawMapping) (k : String) : List (String × Prim) :=
  match data.lookup k with
  | some (.flagList (fm :: _)) => fm
  | _ => []

/-- Presence and coerced integer of one flag inside a flags field. -/
def flagView (data : RawMapping) (k key : String) : Option (Option Int) :=
  ((getFlagMap data k).lookup key).map coerceInt

/-! ### Errors and validation policy -/

/-- Modelled from the spec: the two error kinds of section 7 —
`MalformedValue` (uncoercible raw field, always fatal) and `OutOfRange`
(strict mode only), both naming the offending field. -/
inductive DecodeError where
  | malformed (field : String)
  | outOfRange (field : String) (shown : String)
deriving DecidableEq

/-- Message of a decode error; an out-of-range failure names the field and
its offending value. -/
def errMsg : DecodeError → String
  | .malformed f => "Malformed value for field " ++ f
  | .outOfRange f v => f ++ " value " ++ v ++ " outside expected range"

/-- One range-validation entry: field name, rendering of the offending
value, and whether the value passed its check. -/
structure Check where
  field : String
  shown : String
  ok : Bool
deriving DecidableEq

/-- Permissive-mode warning text for a failed check; the tests look for the
field name, the value and the words "outside expected range". -/
def warnMsg (c : Check) : String :=
  c.field ++ " value " ++ c.shown ++ " outside expected range"

/-- Modelled from the spec: the dual-mode validation policy of section 4.4
— checks run in declaration order; in strict mode the first failure aborts
with an `OutOfRange` error, in permissive mode every failure becomes a
warning and parsing continues. -/
def runChecks (strict : Bool) : List Check → Except DecodeError (List String)
  | [] => .ok []
  | c :: rest =>
    if c.ok then runChecks strict rest
    else if strict then .error (.outOfRange c.field c.shown)
    else (runChecks strict rest).map (fun ws => warnMsg c :: ws)

/-! ### Sentinels (from const.py) -/

/-- Signed 16-bit max: temperature sensor not attached (const.py). -/
def INT16_SENSOR_NOT_ATTACHED : Int := 32767

/-- Unsigned 16-bit max: CO2/humidity sensor not attached (const.py). -/
def UINT16_SENSOR_NOT_ATTACHED : Int := 65535

/-! ### Flags records -/

/-- Decode one flag from its presence/coercion view: missing key means
false, a present 0/1 (or any integer) is taken as boolean by nonzero test,
an uncoercible value is malformed. -/
def flagBit (key : String) : Option (Option Int) → Except DecodeError Bool
  | none => .ok false
  | some (some n) => .ok (n != 0)
  | some none => .error (.malformed key)

/-- Status bitflag record (spec section 3). -/
structure StatusFlags where
  window_open_detected : Bool
  heating_on : Bool
deriving DecidableEq

/-- Decode status flags from the two per-key views. -/
def StatusFlags.fromVals (w h : Option (Option Int)) :
    Except DecodeError StatusFlags := do
  let wv ← flagBit "WINDOW_OPEN_DETECTED" w
  let hv ← flagBit "HEATING_ON" h
  pure ⟨wv, hv⟩

/-- Modelled from the spec: `StatusFlags.from_dict` decodes the flag
mapping, treating a missing key as false and 0/1 by nonzero test. -/
def StatusFlags.from_dict (fm : List (String × Prim)) :
    Except DecodeError StatusFlags :=
  StatusFlags.fromVals ((fm.lookup "WINDOW_OPEN_DETECTED").map coerceInt)
    ((fm.lookup "HEATING_ON").map coerceInt)

/-- Settings bitflag record (spec section 3). -/
structure SettingFlags where
  reboot : Bool
  actuator_exercise_disabled : Bool
  recalibrate_co2 : Bool
  childlock_enabled : Bool
  boost_enabled : Bool
deriving DecidableEq

/-- Decode setting flags from the five per-key views. -/
def SettingFlags.fromVals (r a c l b : Option (Option Int)) :
    Except DecodeError SettingFlags := do
  let rv ← flagBit "REBOOT" r
  let av ← flagBit "ACTUATOR_EXERCISE_DISABLED" a
  let cv ← flagBit "RECALIBRATE_CO2" c
  let lv ← flagBit "CHILDLOCK_ENABLED" l
  let bv ← flagBit "BOOST_ENABLED" b
  pure ⟨rv, av, cv, lv, bv⟩

/-- Modelled from the spec: `SettingFlags.from_dict` decodes the flag
mapping, treating a missing key as false and 0/1 by nonzero test. -/
def SettingFlags.from_dict (fm : List (String × Prim)) :
    Except DecodeError SettingFlags :=
  SettingFlags.fromVals ((fm.lookup "REBOOT").map coerceInt)
    ((fm.lookup "ACTUATOR_EXERCISE_DISABLED").map coerceInt)
    ((fm.lookup "RECALIBRATE_CO2").map coerceInt)
    ((fm.lookup "CHILDLOCK_ENABLED").map coerceInt)
    ((fm.lookup "BOOST_ENABLED").map coerceInt)

/-- Modelled from the spec: `SettingFlags.to_dict` — encode is the exact
inverse of flag decode, producing boolean-as-0/1 under the original field
names (spec section 4.5). -/
def SettingFlags.to_dict (f : SettingFlags) : List (String × Prim) :=
  [("REBOOT", .pint (cond f.reboot 1 0)),
   ("ACTUATOR_EXERCISE_DISABLED", .pint (cond f.actuator_exercise_disabled 1 0)),
   ("RECALIBRATE_CO2", .pint (cond f.recalibrate_co2 1 0)),
   ("CHILDLOCK_ENABLED", .pint (cond f.childlock_enabled 1 0)),
   ("BOOST_ENABLED", .pint (cond f.boost_enabled 1 0))]

/-! ### StatusRecord -/

/-- Typed read-only telemetry snapshot (spec section 3, `ThermostatStatus`
in the source); optional fields model the sensor-absent sentinels. -/
structure ThermostatStatus where
  device_id : String
  hw_version : Int
  fw_version : Int
  temp_air : Option ℚ
  temp_floor : Option ℚ
  hum_air : Option ℚ
  setpoint_temp : ℚ
  co2 : Option Int
  aqi : Option Int
  device_uptime : Int
  heating_uptime : Int
  errors : Int
  status_flags : StatusFlags
deriving DecidableEq

/-- Derived view of the heating-active flag. -/
def ThermostatStatus.is_heating (s : ThermostatStatus) : Bool :=
  s.status_flags.heating_on

/-- Derived from error code different from 0. -/
def ThermostatStatus.has_error (s : ThermostatStatus) : Bool :=
  s.errors != 0

/-- Derived from floor temperature absence. -/
def ThermostatStatus.has_floor_sensor (s : ThermostatStatus) : Bool :=
  s.temp_floor.isSome

/-- Derived from CO2 reading absence. -/
def ThermostatStatus.has_co2_sensor (s : ThermostatStatus) : Bool :=
  s.co2.isSome

/-- Raw (coerced, pre-scaling) fields of a status response. -/
structure RawStatusFields where
  device_id : String
  hw : Int
  fw : Int
  tair : Int
  tfloor : Int
  hum : Int
  setp : Int
  co2 : Int
  aqi : Option Int
  dup : Int
  hup : Int
  errs : Int
  flags : StatusFlags
deriving DecidableEq

/-- Required integer field from its view: absent or uncoercible raw values
are `MalformedValue` failures. -/
def reqInt (field : String) : Option (Option Int) → Except DecodeError Int
  | some (some n) => .ok n
  | some none => .error (.malformed field)
  | none => .error (.malformed field)

/-- Optional integer field from its view: absent is fine, a present but
uncoercible value is a `MalformedValue` failure. -/
def optIntV (field : String) : Option (Option Int) → Except DecodeError (Option Int)
  | none => .ok none
  | some (some n) => .ok (some n)
  | some none => .error (.malformed field)

/-- Required string field. -/
def reqStrV (field : String) : Option String → Except DecodeError String
  | some s => .ok s
  | none => .error (.malformed field)

/-- Coerce all status fields from their per-key views (field order follows
the table of spec section 6; AQI is optional, DEVICE_ID defaults to ""). -/
def parseStatusAux (did : Option String)
    (hw fw tair tfloor hum setp co2v aqiv dup hup errs : Option (Option Int))
    (wflag hflag : Option (Option Int)) : Except DecodeError RawStatusFields := do
  let hwv ← reqInt "HW_VERSION" hw
  let fwv ← reqInt "FW_VERSION" fw
  let ta ← reqInt "TEMP_AIR" tair
  let tf ← reqInt "TEMP_FLOOR" tfloor
  let hu ← reqInt "HUM_AIR" hum
  let sp ← reqInt "SETPOINT_TEMP" setp
  let c ← reqInt "CO2" co2v
  let aq ← optIntV "AQI" aqiv
  let du ← reqInt "DEVICE_UPTIME" dup
  let hp ← reqInt "HEATING_UPTIME" hup
  let er ← reqInt "ERRORS" errs
  let flg ← StatusFlags.fromVals wflag hflag
  pure ⟨did.getD "", hwv, fwv, ta, tf, hu, sp, c, aq, du, hp, er, flg⟩

/-- Modelled from the spec: wire-value coercion pass of a raw status
mapping — every access to the mapping happens through the presence/coercion
views, so decoding depends on a field only through its coerced value. -/
def parseStatusFields (data : RawMapping) : Except DecodeError RawStatusFields :=
  parseStatusAux (getStr data "DEVICE_ID")
    (rawIntView data "HW_VERSION") (rawIntView data "FW_VERSION")
    (rawIntView data "TEMP_AIR") (rawIntView data "TEMP_FLOOR")
    (rawIntView data "HUM_AIR") (rawIntView data "SETPOINT_TEMP")
    (rawIntView data "CO2") (rawIntView data "AQI")
    (rawIntView data "DEVICE_UPTIME") (rawIntView data "HEATING_UPTIME")
    (rawIntView data "ERRORS")
    (flagView data "STATUS_FLAGS" "WINDOW_OPEN_DETECTED")
    (flagView data "STATUS_FLAGS" "HEATING_ON")

/-- Modelled from the spec: range checks of a status record in the order of
the section 6 table; sentinel-absent fields and a missing AQI are exempt,
AQI is further exempt when the CO2 sensor is absent. -/
def statusChecks (f : RawStatusFields) : List Check :=
  [⟨"HW_VERSION", toString f.hw, decide (256 ≤ f.hw ∧ f.hw ≤ 999)⟩,
   ⟨"FW_VERSION", toString f.fw, decide (256 ≤ f.fw ∧ f.fw ≤ 999)⟩,
   ⟨"TEMP_AIR", toString f.tair,
     decide (f.tair = INT16_SENSOR_NOT_ATTACHED ∨
       (-40 ≤ decodeTenths f.tair ∧ decodeTenths f.tair ≤ 80))⟩,
   ⟨"TEMP_FLOOR", toString f.tfloor,
     decide (f.tfloor = INT16_SENSOR_NOT_ATTACHED ∨
       (-40 ≤ decodeTenths f.tfloor ∧ decodeTenths f.tfloor ≤ 80))⟩,
   ⟨"HUM_AIR", toString f.hum,
     decide (f.hum = UINT16_SENSOR_NOT_ATTACHED ∨
       (0 ≤ decodeTenths f.hum ∧ decodeTenths f.hum ≤ 100))⟩,
   ⟨"SETPOINT_TEMP", toString f.setp,
     decide (5 ≤ decodeTenths f.setp ∧ decodeTenths f.setp ≤ 35)⟩,
   ⟨"CO2", toString f.co2,
     decide (f.co2 = UINT16_SENSOR_NOT_ATTACHED ∨ (0 ≤ f.co2 ∧ f.co2 ≤ 10000))⟩,
   ⟨"AQI", toString (f.aqi.getD 0),
     decide (f.co2 = UINT16_SENSOR_NOT_ATTACHED ∨
       (0 ≤ f.aqi.getD 0 ∧ f.aqi.getD 0 ≤ 5))⟩,
   ⟨"DEVICE_UPTIME", toString f.dup, decide (0 ≤ f.dup ∧ f.dup ≤ 4294967295)⟩,
   ⟨"HEATING_UPTIME", toString f.hup, decide (0 ≤ f.hup ∧ f.hup ≤ 4294967295)⟩]

/-- Modelled from the spec: build the typed status record — sentinel
resolution strictly before scaling (spec section 4.2), AQI forced absent
when the CO2 sensor is absent. -/
def buildStatus (f : RawStatusFields) : ThermostatStatus :=
  ⟨f.device_id, f.hw, f.fw,
   if f.tair = INT16_SENSOR_NOT_ATTACHED then none else some (decodeTenths f.tair),
   if f.tfloor = INT16_SENSOR_NOT_ATTACHED then none else some (decodeTenths f.tfloor),
   if f.hum = UINT16_SENSOR_NOT_ATTACHED then none else some (decodeTenths f.hum),
   decodeTenths f.setp,
   if f.co2 = UINT16_SENSOR_NOT_ATTACHED then none else some f.co2,
   if f.co2 = UINT16_SENSOR_NOT_ATTACHED then none else f.aqi,
   f.dup, f.hup, f.errs, f.flags⟩

/-- Modelled from the spec: `ThermostatStatus.from_dict` — coerce, validate
(permissive by default in the source: `strict=False`), then build; returns
the typed record together with the emitted warnings, or the first failure. -/
def ThermostatStatus.from_dict (data : RawMapping) (strict : Bool) :
    Except DecodeError (ThermostatStatus × List String) := do
  let f ← parseStatusFields data
  let ws ← runChecks strict (statusChecks f)
  pure (buildStatus f, ws)

/-! ### SettingsRecord -/

/-- Typed read/write configuration snapshot (spec section 3,
`ThermostatSettings` in the source). -/
structure ThermostatSettings where
  device_id : String
  mode : Int
  setpoint_temp : ℚ
  setpoint_temp_away : ℚ
  hysteresis_band : ℚ
  device_name : String
  setting_flags : SettingFlags
deriving DecidableEq

/-- Mode is HOME. -/
def ThermostatSettings.is_home_mode (s : ThermostatSettings) : Bool :=
  s.mode == 1

/-- Mode is AWAY. -/
def ThermostatSettings.is_away_mode (s : ThermostatSettings) : Bool :=
  s.mode == 2

/-- Raw (coerced, pre-scaling) fields of a settings response. -/
structure RawSettingsFields where
  device_id : String
  mode : Int
  setp : Int
  away : Int
  hyst : Int
  name : String
  flags : SettingFlags
deriving DecidableEq

/-- Coerce all settings fields from their per-key views (field order
follows the table of spec section 6; DEVICE_ID defaults to ""). -/
def parseSettingsAux (did : Option String)
    (modev setpv awayv hystv : Option (Option Int)) (namev : Option String)
    (fr fa fc fcl fb : Option (Option Int)) :
    Except DecodeError RawSettingsFields := do
  let m ← reqInt "MODE" modev
  let sp ← reqInt "SETPOINT_TEMP" setpv
  let aw ← reqInt "SETPOINT_TEMP_AWAY" awayv
  let hy ← reqInt "HYSTERESIS_BAND" hystv
  let nm ← reqStrV "DEVICE_NAME" namev
  let flg ← SettingFlags.fromVals fr fa fc fcl fb
  pure ⟨did.getD "", m, sp, aw, hy, nm, flg⟩

/-- Modelled from the spec: wire-value coercion pass of a raw settings
mapping, through the presence/coercion views. -/
def parseSettingsFields (data : RawMapping) : Except DecodeError RawSettingsFields :=
  parseSettingsAux (getStr data "DEVICE_ID")
    (rawIntView data "MODE") (rawIntView data "SETPOINT_TEMP")
    (rawIntView data "SETPOINT_TEMP_AWAY") (rawIntView data "HYSTERESIS_BAND")
    (getStr data "DEVICE_NAME")
    (flagView data "SETTING_FLAGS" "REBOOT")
    (flagView data "SETTING_FLAGS" "ACTUATOR_EXERCISE_DISABLED")
    (flagView data "SETTING_FLAGS" "RECALIBRATE_CO2")
    (flagView data "SETTING_FLAGS" "CHILDLOCK_ENABLED")
    (flagView data "SETTING_FLAGS" "BOOST_ENABLED")

/-- Modelled from the spec: range checks of a settings record in the order
of the section 6 table — MODE against the closed set, setpoints and
hysteresis against raw bounds, device name by character count. -/
def settingsChecks (f : RawSettingsFields) : List Check :=
  [⟨"MODE", toString f.mode, decide (1 ≤ f.mode ∧ f.mode ≤ 2)⟩,
   ⟨"SETPOINT_TEMP", toString f.setp, decide (50 ≤ f.setp ∧ f.setp ≤ 350)⟩,
   ⟨"SETPOINT_TEMP_AWAY", toString f.away, decide (50 ≤ f.away ∧ f.away ≤ 350)⟩,
   ⟨"HYSTERESIS_BAND", toString f.hyst, decide (0 ≤ f.hyst ∧ f.hyst ≤ 5)⟩,
   ⟨"DEVICE_NAME", f.name, decide (1 ≤ f.name.length ∧ f.name.length ≤ 20)⟩]

/-- Build the typed settings record (tenths scaling on the three
temperature-like fields). -/
def buildSettings (f : RawSettingsFields) : ThermostatSettings :=
  ⟨f.device_id, f.mode, decodeTenths f.setp, decodeTenths f.away,
   decodeTenths f.hyst, f.name, f.flags⟩

/-- Modelled from the spec: `ThermostatSettings.from_dict` — coerce,
validate (permissive by default in the source: `strict=False`), build. -/
def ThermostatSettings.from_dict (data : RawMapping) (strict : Bool) :
    Except DecodeError (ThermostatSettings × List String) := do
  let f ← parseSettingsFields data
  let ws ← runChecks strict (settingsChecks f)
  pure (buildSettings f, ws)

/-- Modelled from the spec: `ThermostatSettings.to_dict` — full encode of
every writable field, tenths-scaled and with the flags sub-record flattened
to 0/1 keys; the read-only DEVICE_ID is never included (spec section 4.6). -/
def ThermostatSettings.to_dict (s : ThermostatSettings) : RawMapping :=
  [("MODE", .prim (.pint s.mode)),
   ("SETPOINT_TEMP", .prim (.pint (encodeTenths s.setpoint_temp))),
   ("SETPOINT_TEMP_AWAY", .prim (.pint (encodeTenths s.setpoint_temp_away))),
   ("HYSTERESIS_BAND", .prim (.pint (encodeTenths s.hysteresis_band))),
   ("DEVICE_NAME", .prim (.pstr s.device_name)),
   ("SETTING_FLAGS", .flagList [s.setting_flags.to_dict])]

/-! ### Client setter methods (validation layer)

The per-setting convenience methods of `AirobotClient` validate their
argument and, only when it is acceptable, assemble the single-key partial
settings payload handed to the transport.  `client.py` is not under the
sources, so the methods are modelled from the spec (section 1: "thin
per-setting convenience methods that merely assemble a single-key
partial-update payload") and the contract pinned by the test suite; an
`Except.error msg` result models raising `AirobotError(msg)` before any
payload is assembled or any HTTP request is performed. -/

/-- A dynamically typed Python argument handed to a setter. -/
inductive PyVal where
  | vint : Int → PyVal
  | vfloat : ℚ → PyVal
  | vstr : String → PyVal
  | vbool : Bool → PyVal
deriving DecidableEq

/-- Modelled from the spec: `set_mode` — validate against the closed mode
set before assembling the MODE payload. -/
def set_mode (m : Int) : Except String (List (String × Prim)) :=
  if m < 1 ∨ 2 < m then .error "Mode must be between 1 and 2"
  else .ok [("MODE", .pint m)]

/-- Modelled from the spec: `set_home_temperature` — validate the typed
range 5.0..35.0 then encode tenths. -/
def set_home_temperature (t : ℚ) : Except String (List (String × Prim)) :=
  if t < 5 ∨ 35 < t then
    .error "HOME temperature must be between 5.0°C and 35.0°C"
  else .ok [("SETPOINT_TEMP", .pint (encodeTenths t))]

/-- Modelled from the spec: `set_away_temperature`. -/
def set_away_temperature (t : ℚ) : Except String (List (String × Prim)) :=
  if t < 5 ∨ 35 < t then
    .error "AWAY temperature must be between 5.0°C and 35.0°C"
  else .ok [("SETPOINT_TEMP_AWAY", .pint (encodeTenths t))]

/-- Modelled from the spec: `set_hysteresis_band` — typed range 0.0..0.5. -/
def set_hysteresis_band (t : ℚ) : Except String (List (String × Prim)) :=
  if t < 0 ∨ Rat.divInt 1 2 < t then
    .error "Hysteresis band must be between 0.0°C and 0.5°C"
  else .ok [("HYSTERESIS_BAND", .pint (encodeTenths t))]

/-- Modelled from the spec: `set_device_name` — argument must be a string
of 1..20 characters. -/
def set_device_name (v : PyVal) : Except String (List (String × Prim)) :=
  match v with
  | .vstr s =>
    if s.length < 1 ∨ 20 < s.length then
      .error "Device name length must be between 1 and 20 characters"
    else .ok [("DEVICE_NAME", .pstr s)]
  | _ => .error "Device name must be a string"

/-- Modelled from the spec: `set_child_lock` — argument must be a boolean,
encoded as 0/1. -/
def set_child_lock (v : PyVal) : Except String (List (String × Prim)) :=
  match v with
  | .vbool b => .ok [("CHILDLOCK_ENABLED", .pint (cond b 1 0))]
  | _ => .error "Child lock must be a boolean"

/-- Modelled from the spec: `set_boost_mode`. -/
def set_boost_mode (v : PyVal) : Except String (List (String × Prim)) :=
  match v with
  | .vbool b => .ok [("BOOST_ENABLED", .pint (cond b 1 0))]
  | _ => .error "Boost mode must be a boolean"

/-- Modelled from the spec: `toggle_actuator_exercise`. -/
def toggle_actuator_exercise (v : PyVal) : Except String (List (String × Prim)) :=
  match v with
  | .vbool b => .ok [("ACTUATOR_EXERCISE_DISABLED", .pint (cond b 1 0))]
  | _ => .error "Actuator exercise disabled must be a boolean"

/-- Modelled from the spec: `reboot_thermostat` — unconditional REBOOT=1
partial payload. -/
def reboot_thermostat : Except String (List (String × Prim)) :=
  .ok [("REBOOT", .pint 1)]

/-- Modelled from the spec: `recalibrate_co2_sensor`. -/
def recalibrate_co2_sensor : Except String (List (String × Prim)) :=
  .ok [("RECALIBRATE_CO2", .pint 1)]

/-! ### Exception hierarchy

`exceptions.py` is not under the sources; the class hierarchy is modelled
from the spec's error taxonomy and the import surface of the tests:
`AirobotError` extends `Exception`, and the connection, auth and timeout
errors extend `AirobotError`. -/

/-- Modelled from the spec: the exception classes of the library together
with Python's `Exception` base. -/
inductive ExcClass where
  | exceptionBase
  | airobotError
  | airobotConnectionError
  | airobotAuthError
  | airobotTimeoutError
deriving DecidableEq

/-- Immediate superclass of each exception class. -/
def ExcClass.parent : ExcClass → Option ExcClass
  | .exceptionBase => none
  | .airobotError => some .exceptionBase
  | .airobotConnectionError => some .airobotError
  | .airobotAuthError => some .airobotError
  | .airobotTimeoutError => some .airobotError

/-- Fuelled reflexive-transitive subclass test along the parent chain. -/
def isSubclassAux : Nat → ExcClass → ExcClass → Bool
  | 0, _, _ => false
  | fuel + 1, a, b =>
    a == b ||
      (match a.parent with
       | some p => isSubclassAux fuel p b
       | none => false)

/-- `isSubclass a b`: a Python `except b:` clause catches an `a` instance. -/
def isSubclass (a b : ExcClass) : Bool := isSubclassAux 5 a b

/-- The exception classes the client raises (tests raise and catch exactly
these: generic API failures, connection, auth and timeout errors). -/
def clientRaisedClasses : List ExcClass :=
  [.airobotError, .airobotConnectionError, .airobotAuthError, .airobotTimeoutError]

/-- An exception instance: its class and its constructor message. -/
structure AirobotException where
  cls : ExcClass
  message : String
deriving DecidableEq

/-- Modelled from the spec: Python `str()` of an exception constructed with
a single message argument is that message. -/
def AirobotException.str (e : AirobotException) : String := e.message

/-- Substring containment on strings (for warning/error message claims). -/
def strContains (s pat : String) : Prop := pat.data <:+: s.data

instance : ∀ s pat, Decidable (strContains s pat) := fun s pat =>
  List.decidableInfix pat.data s.data

/-! ### Concrete inputs used to witness the theorems -/

/-- A raw status mapping with every field present (AQI optional). -/
def mkStatusData (did : String) (hw fw tair tfloor hum setp co2 : Int)
    (aqi : Option Int) (dup hup errs wflag hflag : Int) : RawMapping :=
  [("DEVICE_ID", .prim (.pstr did)),
   ("HW_VERSION", .prim (.pint hw)), ("FW_VERSION", .prim (.pint fw)),
   ("TEMP_AIR", .prim (.pint tair)), ("TEMP_FLOOR", .prim (.pint tfloor)),
   ("HUM_AIR", .prim (.pint hum)), ("SETPOINT_TEMP", .prim (.pint setp)),
   ("CO2", .prim (.pint co2))] ++
  (match aqi with | some a => [("AQI", .prim (.pint a))] | none => []) ++
  [("DEVICE_UPTIME", .prim (.pint dup)), ("HEATING_UPTIME", .prim (.pint hup)),
   ("ERRORS", .prim (.pint errs)),
   ("STATUS_FLAGS",
     .flagList [[("WINDOW_OPEN_DETECTED", .pint wflag), ("HEATING_ON", .pint hflag)]])]

/-- Status input with both the air-temperature and CO2 sentinels and an
in-range raw AQI. -/
def dataC2 : RawMapping :=
  mkStatusData "T01TEST123" 256 262 32767 300 400 245 65535 (some 2) 124 117 0 0 1

/-- Typed record decoded from `dataC2`. -/
def recC2 : ThermostatStatus :=
  ⟨"T01TEST123", 256, 262, none, some (decodeTenths 300), some (decodeTenths 400),
   decodeTenths 245, none, none, 124, 117, 0, ⟨false, true⟩⟩

/-- Status input with the humidity sentinel. -/
def dataC7 : RawMapping :=
  mkStatusData "T01TEST123" 256 262 220 300 65535 245 800 (some 2) 124 117 0 0 1

/-- Typed record decoded from `dataC7`. -/
def recC7 : ThermostatStatus :=
  ⟨"T01TEST123", 256, 262, some (decodeTenths 220), some (decodeTenths 300), none,
   decodeTenths 245, some 800, some 2, 124, 117, 0, ⟨false, true⟩⟩

/-- Status input whose only out-of-range field is HW_VERSION = 100. -/
def dataC3 : RawMapping :=
  mkStatusData "T01TEST123" 100 262 220 300 400 245 800 (some 2) 124 117 0 0 1

/-- Coerced fields parsed from `dataC3`. -/
def fieldsC3 : RawStatusFields :=
  ⟨"T01TEST123", 100, 262, 220, 300, 400, 245, 800, some 2, 124, 117, 0, ⟨false, true⟩⟩

/-- Settings input with two out-of-range fields: MODE = 5 (first in the
section 6 field order) and a 25-character device name. -/
def dataC4 : RawMapping :=
  [("DEVICE_ID", .prim (.pstr "T01TEST")),
   ("MODE", .prim (.pint 5)),
   ("SETPOINT_TEMP", .prim (.pint 220)),
   ("SETPOINT_TEMP_AWAY", .prim (.pint 180)),
   ("HYSTERESIS_BAND", .prim (.pint 1)),
   ("DEVICE_NAME", .prim (.pstr "xxxxxxxxxxxxxxxxxxxxxxxxx")),
   ("SETTING_FLAGS",
     .flagList [[("REBOOT", .pint 0), ("ACTUATOR_EXERCISE_DISABLED", .pint 0),
                 ("RECALIBRATE_CO2", .pint 0), ("CHILDLOCK_ENABLED", .pint 0),
                 ("BOOST_ENABLED", .pint 0)]])]

/-- Coerced fields parsed from `dataC4`. -/
def fieldsC4 : RawSettingsFields :=
  ⟨"T01TEST", 5, 220, 180, 1, "xxxxxxxxxxxxxxxxxxxxxxxxx",
   ⟨false, false, false, false, false⟩⟩

/-- Status input carrying several numeric values as strings (from the
string-conversion test; DEVICE_ID is omitted by the device). -/
def dataC5str : RawMapping :=
  [("HW_VERSION", .prim (.pstr "257")), ("FW_VERSION", .prim (.pstr "265")),
   ("TEMP_AIR", .prim (.pint 245)), ("HUM_AIR", .prim (.pint 322)),
   ("TEMP_FLOOR", .prim (.pint 32767)), ("CO2", .prim (.pint 1110)),
   ("AQI", .prim (.pint 3)), ("SETPOINT_TEMP", .prim (.pint 240)),
   ("DEVICE_UPTIME", .prim (.pstr "657827")),
   ("HEATING_UPTIME", .prim (.pstr "104954")),
   ("ERRORS", .prim (.pstr "0")),
   ("STATUS_FLAGS",
     .flagList [[("WINDOW_OPEN_DETECTED", .pstr "0"), ("HEATING_ON", .pstr "1")]])]

/-- The same status input with native integers in place of the strings. -/
def dataC5int : RawMapping :=
  [("HW_VERSION", .prim (.pint 257)), ("FW_VERSION", .prim (.pint 265)),
   ("TEMP_AIR", .prim (.pint 245)), ("HUM_AIR", .prim (.pint 322)),
   ("TEMP_FLOOR", .prim (.pint 32767)), ("CO2", .prim (.pint 1110)),
   ("AQI", .prim (.pint 3)), ("SETPOINT_TEMP", .prim (.pint 240)),
   ("DEVICE_UPTIME", .prim (.pint 657827)),
   ("HEATING_UPTIME", .prim (.pint 104954)),
   ("ERRORS", .prim (.pint 0)),
   ("STATUS_FLAGS",
     .flagList [[("WINDOW_OPEN_DETECTED", .pint 0), ("HEATING_ON", .pint 1)]])]

/-- Settings input carrying every numeric value as a string (from the
settings string-conversion test). -/
def dataC5SettingsStr : RawMapping :=
  [("DEVICE_ID", .prim (.pstr "T01648142")),
   ("MODE", .prim (.pstr "1")),
   ("SETPOINT_TEMP", .prim (.pstr "220")),
   ("SETPOINT_TEMP_AWAY", .prim (.pstr "180")),
   ("HYSTERESIS_BAND", .prim (.pstr "1")),
   ("DEVICE_NAME", .prim (.pstr "Bedroom")),
   ("SETTING_FLAGS",
     .flagList [[("REBOOT", .pstr "0"), ("ACTUATOR_EXERCISE_DISABLED", .pstr "0"),
                 ("RECALIBRATE_CO2", .pstr "0"), ("CHILDLOCK_ENABLED", .pstr "1"),
                 ("BOOST_ENABLED", .pstr "0")]])]

/-- The same settings input with native integers. -/
def dataC5SettingsInt : RawMapping :=
  [("DEVICE_ID", .prim (.pstr "T01648142")),
   ("MODE", .prim (.pint 1)),
   ("SETPOINT_TEMP", .prim (.pint 220)),
   ("SETPOINT_TEMP_AWAY", .prim (.pint 180)),
   ("HYSTERESIS_BAND", .prim (.pint 1)),
   ("DEVICE_NAME", .prim (.pstr "Bedroom")),
   ("SETTING_FLAGS",
     .flagList [[("REBOOT", .pint 0), ("ACTUATOR_EXERCISE_DISABLED", .pint 0),
                 ("RECALIBRATE_CO2", .pint 0), ("CHILDLOCK_ENABLED", .pint 1),
                 ("BOOST_ENABLED", .pint 0)]])]

/-- Flags mapping with a present nonzero REBOOT and some keys missing. -/
def flagsC6 : List (String × Prim) :=
  [("REBOOT", .pint 1), ("CHILDLOCK_ENABLED", .pint 0)]

/-- An in-range settings record whose setpoint is the binary64 value
nearest 23.55 — in range but not aligned to 0.1 °C granularity — and whose
device identifier is nonempty. -/
def exRecord : ThermostatSettings :=
  ⟨"T01648142", 2, fl (Rat.divInt 2355 100), decodeTenths 165, decodeTenths 3,
   "Kitchen", ⟨false, true, false, true, false⟩⟩

/-- What a full encode of `exRecord` decodes back to: the setpoint lands on
23.6 and the device identifier is lost. -/
def exDecoded : ThermostatSettings :=
  ⟨"", 2, decodeTenths 236, decodeTenths 165, decodeTenths 3,
   "Kitchen", ⟨false, true, false, true, false⟩⟩

/-- The canonical in-range raw settings payload (integers for every numeric
field, flags as the one-element list of 0/1 values, DEVICE_ID first). -/
def settingsPayload (did : String) (m k1 k2 k3 : Int) (name : String)
    (g : SettingFlags) : RawMapping :=
  [("DEVICE_ID", .prim (.pstr did)),
   ("MODE", .prim (.pint m)),
   ("SETPOINT_TEMP", .prim (.pint k1)),
   ("SETPOINT_TEMP_AWAY", .prim (.pint k2)),
   ("HYSTERESIS_BAND", .prim (.pint k3)),
   ("DEVICE_NAME", .prim (.pstr name)),
   ("SETTING_FLAGS", .flagList [g.to_dict])]

/-- Balanced exhaustive check of a boolean predicate on the integer
interval `[lo, hi]`; splitting keeps kernel-reduction depth logarithmic. -/
def checkIccAux (p : Int → Bool) : Nat → Int → Int → Bool
  | 0, lo, hi => decide (hi < lo)
  | fuel + 1, lo, hi =>
    if hi < lo then true
    else if lo = hi then p lo
    else
      let mid := lo + (((hi - lo).toNat / 2 : Nat) : Int)
      checkIccAux p fuel lo mid && checkIccAux p fuel (mid + 1) hi

theorem checkIccAux_sound (p : Int → Bool) :
    ∀ (fuel : Nat) (lo hi : Int), checkIccAux p fuel lo hi = true →
      ∀ k : Int, lo ≤ k → k ≤ hi → p k = true := by
  intro fuel
  induction fuel with
  | zero =>
    intro lo hi h k h1 h2
    simp only [checkIccAux, decide_eq_true_eq] at h
    omega
  | succ n ih =>
    intro lo hi h k h1 h2
    simp only [checkIccAux] at h
    by_cases hlt : hi < lo
    · omega
    · simp only [if_neg hlt] at h
      by_cases heq : lo = hi
      · simp only [if_pos heq] at h
        have : k = lo := by omega
        exact this ▸ h
      · simp only [if_neg heq, Bool.and_eq_true] at h
        set mid := lo + (((hi - lo).toNat / 2 : Nat) : Int) with hmid
        have hmid1 : lo ≤ mid := by omega
        have hmid2 : mid < hi := by omega
        by_cases hk : k ≤ mid
        · exact ih lo mid h.1 k h1 hk
        · exact ih (mid + 1) hi h.2 k (by omega) h2

set_option maxHeartbeats 4000000 in
/-- Exhaustive balanced check of the tenths-scaling round trip over the
raw range −400..1000. -/
theorem tenths_roundtrip_check :
    checkIccAux (fun j => encodeTenths (decodeTenths j) == j) 12 (-400) 1000 = true := by
  decide

/-- Exactness of tenths scaling over the full raw range covering every
tenths-scaled field of the protocol (raw temperatures −400..800, humidity
0..1000, setpoints 50..350, hysteresis 0..5): binary64 decode followed by
binary64 encode restores the raw integer. -/
theorem tenths_roundtrip (k : Int) (h1 : -400 ≤ k) (h2 : k ≤ 1000) :
    encodeTenths (decodeTenths k) = k := by
  have := checkIccAux_sound _ 12 (-400) 1000 tenths_roundtrip_check k h1 h2
  simpa using this

/-! ### Helper lemmas on the decode pipeline -/

theorem exceptBind_ok {ε α β : Type} {x : Except ε α} {g : α → Except ε β} {c : β} :
    (x >>= g) = .ok c ↔ ∃ b, x = .ok b ∧ g b = .ok c := by
  cases x <;> simp [Bind.bind, Except.bind]

theorem reqInt_ok {fld : String} {v : Option (Option Int)} {n : Int}
    (h : reqInt fld v = .ok n) : v = some (some n) := by
  rcases v with _ | (_ | m) <;> simp [reqInt] at h <;> simp [h]

theorem optIntV_ok {fld : String} {v : Option (Option Int)} {o : Option Int}
    (h : optIntV fld v = .ok o) : v = Option.map some o := by
  rcases v with _ | (_ | m) <;> simp [optIntV] at h <;> simp [← h]

theorem reqStrV_ok {fld : String} {v : Option String} {s : String}
    (h : reqStrV fld v = .ok s) : v = some s := by
  rcases v with _ | t <;> simp [reqStrV] at h <;> simp [h]

theorem parseStatusAux_ok {did : Option String}
    {hw fw tair tfloor hum setp co2v aqiv dup hup errs wf hg : Option (Option Int)}
    {f : RawStatusFields}
    (h : parseStatusAux did hw fw tair tfloor hum setp co2v aqiv dup hup errs wf hg = .ok f) :
    f.device_id = did.getD "" ∧ hw = some (some f.hw) ∧ fw = some (some f.fw) ∧
    tair = some (some f.tair) ∧ tfloor = some (some f.tfloor) ∧
    hum = some (some f.hum) ∧ setp = some (some f.setp) ∧
    co2v = some (some f.co2) ∧ aqiv = Option.map some f.aqi ∧
    dup = some (some f.dup) ∧ hup = some (some f.hup) ∧ errs = some (some f.errs) ∧
    StatusFlags.fromVals wf hg = .ok f.flags := by
  simp only [parseStatusAux, exceptBind_ok] at h
  obtain ⟨a1, h1, a2, h2, a3, h3, a4, h4, a5, h5, a6, h6, a7, h7, a8, h8, a9, h9,
    a10, h10, a11, h11, a12, h12, hpure⟩ := h
  simp only [Pure.pure, Except.pure, Except.ok.injEq] at hpure
  subst hpure
  exact ⟨rfl, reqInt_ok h1, reqInt_ok h2, reqInt_ok h3, reqInt_ok h4, reqInt_ok h5,
    reqInt_ok h6, reqInt_ok h7, optIntV_ok h8, reqInt_ok h9, reqInt_ok h10,
    reqInt_ok h11, h12⟩

theorem parseSettingsAux_ok {did : Option String}
    {modev setpv awayv hystv : Option (Option Int)} {namev : Option String}
    {fr fa fc fcl fb : Option (Option Int)} {f : RawSettingsFields}
    (h : parseSettingsAux did modev setpv awayv hystv namev fr fa fc fcl fb = .ok f) :
    f.device_id = did.getD "" ∧ modev = some (some f.mode) ∧
    setpv = some (some f.setp) ∧ awayv = some (some f.away) ∧
    hystv = some (some f.hyst) ∧ namev = some f.name ∧
    SettingFlags.fromVals fr fa fc fcl fb = .ok f.flags := by
  simp only [parseSettingsAux, exceptBind_ok] at h
  obtain ⟨a1, h1, a2, h2, a3, h3, a4, h4, a5, h5, a6, h6, hpure⟩ := h
  simp only [Pure.pure, Except.pure, Except.ok.injEq] at hpure
  subst hpure
  exact ⟨rfl, reqInt_ok h1, reqInt_ok h2, reqInt_ok h3, reqInt_ok h4,
    reqStrV_ok h5, h6⟩

theorem settingFlags_fromVals_ok {fr fa fc fcl fb : Option (Option Int)}
    {g : SettingFlags}
    (h : SettingFlags.fromVals fr fa fc fcl fb = .ok g) :
    flagBit "REBOOT" fr = .ok g.reboot ∧
    flagBit "ACTUATOR_EXERCISE_DISABLED" fa = .ok g.actuator_exercise_disabled ∧
    flagBit "RECALIBRATE_CO2" fc = .ok g.recalibrate_co2 ∧
    flagBit "CHILDLOCK_ENABLED" fcl = .ok g.childlock_enabled ∧
    flagBit "BOOST_ENABLED" fb = .ok g.boost_enabled := by
  simp only [SettingFlags.fromVals, exceptBind_ok] at h
  obtain ⟨a1, h1, a2, h2, a3, h3, a4, h4, a5, h5, hpure⟩ := h
  simp only [Pure.pure, Except.pure, Except.ok.injEq] at hpure
  subst hpure
  exact ⟨h1, h2, h3, h4, h5⟩

theorem fromDict_ok_status {data : RawMapping} {strict : Bool}
    {r : ThermostatStatus} {ws : List String}
    (h : ThermostatStatus.from_dict data strict = .ok (r, ws)) :
    ∃ f, parseStatusFields data = .ok f ∧
      runChecks strict (statusChecks f) = .ok ws ∧ r = buildStatus f := by
  simp only [ThermostatStatus.from_dict, exceptBind_ok] at h
  obtain ⟨f, hf, ws', hws, hpure⟩ := h
  simp only [Pure.pure, Except.pure, Except.ok.injEq, Prod.mk.injEq] at hpure
  exact ⟨f, hf, hpure.2 ▸ hws, hpure.1.symm⟩

theorem fromDict_ok_settings {data : RawMapping} {strict : Bool}
    {r : ThermostatSettings} {ws : List String}
    (h : ThermostatSettings.from_dict data strict = .ok (r, ws)) :
    ∃ f, parseSettingsFields data = .ok f ∧
      runChecks strict (settingsChecks f) = .ok ws ∧ r = buildSettings f := by
  simp only [ThermostatSettings.from_dict, exceptBind_ok] at h
  obtain ⟨f, hf, ws', hws, hpure⟩ := h
  simp only [Pure.pure, Except.pure, Except.ok.injEq, Prod.mk.injEq] at hpure
  exact ⟨f, hf, hpure.2 ▸ hws, hpure.1.symm⟩

theorem fromDict_status_eval {data : RawMapping} {f : RawStatusFields} {strict : Bool}
    (hp : parseStatusFields data = .ok f) :
    ThermostatStatus.from_dict data strict =
      (runChecks strict (statusChecks f)).map (fun ws => (buildStatus f, ws)) := by
  simp only [ThermostatStatus.from_dict, hp]
  cases hcw : runChecks strict (statusChecks f) <;>
    simp [Bind.bind, Except.bind, Except.map, hcw, Pure.pure, Except.pure]

theorem fromDict_settings_eval (strict : Bool) {data : RawMapping} {f : RawSettingsFields}
    (hp : parseSettingsFields data = .ok f) :
    ThermostatSettings.from_dict data strict =
      (runChecks strict (settingsChecks f)).map (fun ws => (buildSettings f, ws)) := by
  simp only [ThermostatSettings.from_dict, hp]
  cases hcw : runChecks strict (settingsChecks f) <;>
    simp [Bind.bind, Except.bind, Except.map, hcw, Pure.pure, Except.pure]

theorem runChecks_strict_eq (cs : List Check) :
    runChecks true cs =
      match cs.find? (fun c => !c.ok) with
      | some c => .error (.outOfRange c.field c.shown)
      | none => .ok [] := by
  induction cs with
  | nil => rfl
  | cons c rest ih =>
    by_cases h : c.ok = true
    · simp [runChecks, h, List.find?_cons, ih]
    · simp only [Bool.not_eq_true] at h
      simp [runChecks, h, List.find?_cons]

/-! ### Claims -/

/-- C2: decoding TEMP_AIR=32767 yields an absent air temperature
regardless of all other fields; decoding CO2=65535 yields both CO2 and AQI
absent even when a raw AQI is present and in range; and the derived
`has_floor_sensor` / `has_co2_sensor` views are false exactly when the
corresponding decoded field is absent. -/
theorem claim_C2 (data : RawMapping) (strict : Bool) (r : ThermostatStatus)
    (ws : List String)
    (h : ThermostatStatus.from_dict data strict = .ok (r, ws)) :
    (rawIntView data "TEMP_AIR" = some (some 32767) → r.temp_air = none)
    ∧ (rawIntView data "CO2" = some (some 65535) → r.co2 = none ∧ r.aqi = none)
    ∧ (r.has_floor_sensor = false ↔ r.temp_floor = none)
    ∧ (r.has_co2_sensor = false ↔ r.co2 = none) := by
  obtain ⟨f, hf, -, hr⟩ := fromDict_ok_status h
  obtain ⟨-, -, -, htair, -, -, -, hco2, -, -, -, -, -⟩ :=
    parseStatusAux_ok (by simpa [parseStatusFields] using hf)
  refine ⟨?_, ?_, ?_, ?_⟩
  · intro hta
    have : f.tair = 32767 := by
      have := htair.symm.trans hta
      simpa using this
    simp [hr, buildStatus, this, INT16_SENSOR_NOT_ATTACHED]
  · intro hc
    have : f.co2 = 65535 := by
      have := hco2.symm.trans hc
      simpa using this
    simp [hr, buildStatus, this, UINT16_SENSOR_NOT_ATTACHED]
  · cases hfl : r.temp_floor <;> simp [ThermostatStatus.has_floor_sensor, hfl]
  · cases hco : r.co2 <;> simp [ThermostatStatus.has_co2_sensor, hco]

/-- Witness: `claim_C2` applied to the concrete sentinel input `dataC2`. -/
theorem claim_C2_witness :
    (rawIntView dataC2 "TEMP_AIR" = some (some 32767) → recC2.temp_air = none)
    ∧ (rawIntView dataC2 "CO2" = some (some 65535) → recC2.co2 = none ∧ recC2.aqi = none)
    ∧ (recC2.has_floor_sensor = false ↔ recC2.temp_floor = none)
    ∧ (recC2.has_co2_sensor = false ↔ recC2.co2 = none) :=
  claim_C2 dataC2 false recC2 [] (by decide)

/-- C7: a raw status mapping with HUM_AIR equal to the unsigned sentinel
65535 decodes to an absent humidity, not to the sentinel-derived value
6553.5 percent. -/
theorem claim_C7 (data : RawMapping) (strict : Bool) (r : ThermostatStatus)
    (ws : List String)
    (h : ThermostatStatus.from_dict data strict = .ok (r, ws))
    (hhum : rawIntView data "HUM_AIR" = some (some 65535)) :
    r.hum_air = none ∧ r.hum_air ≠ some (Rat.divInt 65535 10) := by
  obtain ⟨f, hf, -, hr⟩ := fromDict_ok_status h
  obtain ⟨-, -, -, -, -, hhumv, -, -, -, -, -, -, -⟩ :=
    parseStatusAux_ok (by simpa [parseStatusFields] using hf)
  have : f.hum = 65535 := by
    have := hhumv.symm.trans hhum
    simpa using this
  have habs : r.hum_air = none := by
    simp [hr, buildStatus, this, UINT16_SENSOR_NOT_ATTACHED]
  exact ⟨habs, by simp [habs]⟩

/-- Witness: `claim_C7` applied to the concrete sentinel input `dataC7`. -/
theorem claim_C7_witness :
    recC7.hum_air = none ∧ recC7.hum_air ≠ some (Rat.divInt 65535 10) :=
  claim_C7 dataC7 false recC7 [] (by decide) (by decide)

/-- C3: for a raw status mapping whose HW_VERSION coerces to 100 and whose
other fields pass their range checks, permissive decode (the source's
default `strict=False`) succeeds, the record has `hw_version = 100`, and
exactly one warning is emitted containing "HW_VERSION" and "100"; strict
decode of the same mapping produces no record but an error whose message
contains "HW_VERSION". -/
theorem claim_C3 (data : RawMapping) (f : RawStatusFields)
    (hp : parseStatusFields data = .ok f)
    (hhw : f.hw = 100)
    (hfw : 256 ≤ f.fw ∧ f.fw ≤ 999)
    (hta : f.tair = INT16_SENSOR_NOT_ATTACHED ∨
      (-40 ≤ decodeTenths f.tair ∧ decodeTenths f.tair ≤ 80))
    (htf : f.tfloor = INT16_SENSOR_NOT_ATTACHED ∨
      (-40 ≤ decodeTenths f.tfloor ∧ decodeTenths f.tfloor ≤ 80))
    (hhu : f.hum = UINT16_SENSOR_NOT_ATTACHED ∨
      (0 ≤ decodeTenths f.hum ∧ decodeTenths f.hum ≤ 100))
    (hsp : 5 ≤ decodeTenths f.setp ∧ decodeTenths f.setp ≤ 35)
    (hco : f.co2 = UINT16_SENSOR_NOT_ATTACHED ∨ (0 ≤ f.co2 ∧ f.co2 ≤ 10000))
    (haq : f.co2 = UINT16_SENSOR_NOT_ATTACHED ∨
      (0 ≤ f.aqi.getD 0 ∧ f.aqi.getD 0 ≤ 5))
    (hdu : 0 ≤ f.dup ∧ f.dup ≤ 4294967295)
    (hhp : 0 ≤ f.hup ∧ f.hup ≤ 4294967295) :
    ThermostatStatus.from_dict data false =
      .ok (buildStatus f, ["HW_VERSION value 100 outside expected range"])
    ∧ (buildStatus f).hw_version = 100
    ∧ strContains "HW_VERSION value 100 outside expected range" "HW_VERSION"
    ∧ strContains "HW_VERSION value 100 outside expected range" "100"
    ∧ ThermostatStatus.from_dict data true = .error (.outOfRange "HW_VERSION" "100")
    ∧ strContains (errMsg (.outOfRange "HW_VERSION" "100")) "HW_VERSION" := by
  have hts : (toString (100 : Int)) = "100" := by decide
  have hhw' : ¬ (256 ≤ f.hw ∧ f.hw ≤ 999) := by rw [hhw]; decide
  have hperm : runChecks false (statusChecks f) =
      .ok ["HW_VERSION value 100 outside expected range"] := by
    simp [statusChecks, runChecks, warnMsg, hhw', hfw, hta, htf, hhu, hsp, hco,
      haq, hdu, hhp, hhw, hts, Except.map]
  have hstr : runChecks true (statusChecks f) =
      .error (.outOfRange "HW_VERSION" "100") := by
    simp [statusChecks, runChecks, hhw', hhw, hts]
  refine ⟨?_, ?_, ?_, ?_, ?_, ?_⟩
  · rw [fromDict_status_eval hp, hperm]; rfl
  · simp [buildStatus, hhw]
  · decide
  · decide
  · rw [fromDict_status_eval hp, hstr]; rfl
  · decide

/-- Witness: `claim_C3` applied to the concrete input `dataC3` whose only
out-of-range field is HW_VERSION = 100. -/
theorem claim_C3_witness :
    ThermostatStatus.from_dict dataC3 false =
      .ok (buildStatus fieldsC3, ["HW_VERSION value 100 outside expected range"])
    ∧ (buildStatus fieldsC3).hw_version = 100
    ∧ strContains "HW_VERSION value 100 outside expected range" "HW_VERSION"
    ∧ strContains "HW_VERSION value 100 outside expected range" "100"
    ∧ ThermostatStatus.from_dict dataC3 true = .error (.outOfRange "HW_VERSION" "100")
    ∧ strContains (errMsg (.outOfRange "HW_VERSION" "100")) "HW_VERSION" :=
  claim_C3 dataC3 fieldsC3 (by decide) (by decide) (by decide) (by decide)
    (by decide) (by decide) (by decide) (by decide) (by decide) (by decide)
    (by decide)

/-- C4: in strict mode, decode raises for exactly the first out-of-range
field in the order of the section 6 table (the order of `settingsChecks`),
reporting no later field, and no partially-initialized record escapes —
the result is either a complete record or a single error. -/
theorem claim_C4 (data : RawMapping) (f : RawSettingsFields) (c : Check)
    (hp : parseSettingsFields data = .ok f)
    (hfind : (settingsChecks f).find? (fun ch => !ch.ok) = some c) :
    ThermostatSettings.from_dict data true = .error (.outOfRange c.field c.shown)
    ∧ ∀ r ws, ThermostatSettings.from_dict data true ≠ .ok (r, ws) := by
  have he := fromDict_settings_eval true hp
  rw [runChecks_strict_eq, hfind] at he
  simp only [Except.map] at he
  exact ⟨he, fun r ws hcontra => by rw [he] at hcontra; cases hcontra⟩

/-- Witness: `claim_C4` applied to `dataC4`, where both MODE (first in the
field order) and DEVICE_NAME (last) are out of range: the error reports
MODE. -/
theorem claim_C4_witness :
    ThermostatSettings.from_dict dataC4 true = .error (.outOfRange "MODE" "5") :=
  (claim_C4 dataC4 fieldsC4 ⟨"MODE", "5", false⟩ (by decide) (by decide)).1

/-- C6: a missing or empty wrapping list decodes flags to the all-false
record without failing, as does an empty flag mapping; a missing key
decodes its flag to false; a present integer flag decodes by nonzero test;
encoding all-false flags emits every key with value 0, and in general each
flag encodes as its boolean rendered 0/1. -/
theorem claim_C6 (data : RawMapping) (fm : List (String × Prim)) (n : Int)
    (g2 : SettingFlags)
    (hmiss : data.lookup "SETTING_FLAGS" = none ∨
      data.lookup "SETTING_FLAGS" = some (.flagList []))
    (hok : SettingFlags.from_dict fm = .ok g2) :
    getFlagMap data "SETTING_FLAGS" = []
    ∧ SettingFlags.from_dict (getFlagMap data "SETTING_FLAGS") =
        .ok ⟨false, false, false, false, false⟩
    ∧ SettingFlags.from_dict [] = .ok ⟨false, false, false, false, false⟩
    ∧ (fm.lookup "REBOOT" = some (.pint n) → g2.reboot = (n != 0))
    ∧ (fm.lookup "CHILDLOCK_ENABLED" = some (.pint n) →
        g2.childlock_enabled = (n != 0))
    ∧ (fm.lookup "BOOST_ENABLED" = none → g2.boost_enabled = false)
    ∧ (fm.lookup "ACTUATOR_EXERCISE_DISABLED" = none →
        g2.actuator_exercise_disabled = false)
    ∧ SettingFlags.to_dict ⟨false, false, false, false, false⟩ =
        [("REBOOT", .pint 0), ("ACTUATOR_EXERCISE_DISABLED", .pint 0),
         ("RECALIBRATE_CO2", .pint 0), ("CHILDLOCK_ENABLED", .pint 0),
         ("BOOST_ENABLED", .pint 0)]
    ∧ (∀ g3 : SettingFlags, SettingFlags.to_dict g3 =
        [("REBOOT", .pint (cond g3.reboot 1 0)),
         ("ACTUATOR_EXERCISE_DISABLED", .pint (cond g3.actuator_exercise_disabled 1 0)),
         ("RECALIBRATE_CO2", .pint (cond g3.recalibrate_co2 1 0)),
         ("CHILDLOCK_ENABLED", .pint (cond g3.childlock_enabled 1 0)),
         ("BOOST_ENABLED", .pint (cond g3.boost_enabled 1 0))]) := by
  have hflat : getFlagMap data "SETTING_FLAGS" = [] := by
    rcases hmiss with h | h
    · simp [getFlagMap, h]
    · simp [getFlagMap, h]
  have hex := settingFlags_fromVals_ok (by simpa [SettingFlags.from_dict] using hok)
  refine ⟨hflat, by rw [hflat]; decide, by decide, ?_, ?_, ?_, ?_, by decide,
    fun g3 => rfl⟩
  · intro hrb
    have h1 := hex.1
    rw [hrb] at h1
    simp [coerceInt, flagBit] at h1
    exact h1.symm
  · intro hrb
    have h1 := hex.2.2.2.1
    rw [hrb] at h1
    simp [coerceInt, flagBit] at h1
    exact h1.symm
  · intro hrb
    have h1 := hex.2.2.2.2
    rw [hrb] at h1
    simp [flagBit] at h1
    exact h1
  · intro hrb
    have h1 := hex.2.1
    rw [hrb] at h1
    simp [flagBit] at h1
    exact h1

/-- Witness: `claim_C6` applied to an empty raw mapping and to the flags
mapping `flagsC6` with a present nonzero REBOOT and missing keys. -/
theorem claim_C6_witness :
    getFlagMap [] "SETTING_FLAGS" = []
    ∧ SettingFlags.from_dict [] = .ok ⟨false, false, false, false, false⟩
    ∧ (⟨true, false, false, false, false⟩ : SettingFlags).reboot = ((1 : Int) != 0)
    ∧ (⟨true, false, false, false, false⟩ : SettingFlags).boost_enabled = false :=
  ⟨(claim_C6 [] flagsC6 1 ⟨true, false, false, false, false⟩ (Or.inl rfl) (by decide)).1,
   (claim_C6 [] flagsC6 1 ⟨true, false, false, false, false⟩ (Or.inl rfl) (by decide)).2.2.1,
   (claim_C6 [] flagsC6 1 ⟨true, false, false, false, false⟩ (Or.inl rfl) (by decide)).2.2.2.1
     (by decide),
   (claim_C6 [] flagsC6 1 ⟨true, false, false, false, false⟩ (Or.inl rfl) (by decide)).2.2.2.2.2.1
     (by decide)⟩

/-- C5: decoding depends on a raw numeric field only through its coerced
integer value, and a numeric string coerces to the same integer as the
native integer it denotes — so a mapping carrying numeric strings decodes
to exactly the same typed record (status, settings and 0/1 flag values
alike) as the mapping carrying the equivalent native integers. -/
theorem claim_C5 (d₁ d₂ : RawMapping) (strict : Bool)
    (h1 : rawIntView d₁ "HW_VERSION" = rawIntView d₂ "HW_VERSION")
    (h2 : rawIntView d₁ "FW_VERSION" = rawIntView d₂ "FW_VERSION")
    (h3 : rawIntView d₁ "TEMP_AIR" = rawIntView d₂ "TEMP_AIR")
    (h4 : rawIntView d₁ "TEMP_FLOOR" = rawIntView d₂ "TEMP_FLOOR")
    (h5 : rawIntView d₁ "HUM_AIR" = rawIntView d₂ "HUM_AIR")
    (h6 : rawIntView d₁ "SETPOINT_TEMP" = rawIntView d₂ "SETPOINT_TEMP")
    (h7 : rawIntView d₁ "CO2" = rawIntView d₂ "CO2")
    (h8 : rawIntView d₁ "AQI" = rawIntView d₂ "AQI")
    (h9 : rawIntView d₁ "DEVICE_UPTIME" = rawIntView d₂ "DEVICE_UPTIME")
    (h10 : rawIntView d₁ "HEATING_UPTIME" = rawIntView d₂ "HEATING_UPTIME")
    (h11 : rawIntView d₁ "ERRORS" = rawIntView d₂ "ERRORS")
    (h12 : getStr d₁ "DEVICE_ID" = getStr d₂ "DEVICE_ID")
    (h13 : flagView d₁ "STATUS_FLAGS" "WINDOW_OPEN_DETECTED" =
      flagView d₂ "STATUS_FLAGS" "WINDOW_OPEN_DETECTED")
    (h14 : flagView d₁ "STATUS_FLAGS" "HEATING_ON" =
      flagView d₂ "STATUS_FLAGS" "HEATING_ON")
    (h15 : rawIntView d₁ "MODE" = rawIntView d₂ "MODE")
    (h16 : rawIntView d₁ "SETPOINT_TEMP_AWAY" = rawIntView d₂ "SETPOINT_TEMP_AWAY")
    (h17 : rawIntView d₁ "HYSTERESIS_BAND" = rawIntView d₂ "HYSTERESIS_BAND")
    (h18 : getStr d₁ "DEVICE_NAME" = getStr d₂ "DEVICE_NAME")
    (h19 : flagView d₁ "SETTING_FLAGS" "REBOOT" = flagView d₂ "SETTING_FLAGS" "REBOOT")
    (h20 : flagView d₁ "SETTING_FLAGS" "ACTUATOR_EXERCISE_DISABLED" =
      flagView d₂ "SETTING_FLAGS" "ACTUATOR_EXERCISE_DISABLED")
    (h21 : flagView d₁ "SETTING_FLAGS" "RECALIBRATE_CO2" =
      flagView d₂ "SETTING_FLAGS" "RECALIBRATE_CO2")
    (h22 : flagView d₁ "SETTING_FLAGS" "CHILDLOCK_ENABLED" =
      flagView d₂ "SETTING_FLAGS" "CHILDLOCK_ENABLED")
    (h23 : flagView d₁ "SETTING_FLAGS" "BOOST_ENABLED" =
      flagView d₂ "SETTING_FLAGS" "BOOST_ENABLED") :
    (∀ s n, strToInt s = some n → coerceInt (.pstr s) = coerceInt (.pint n))
    ∧ ThermostatStatus.from_dict d₁ strict = ThermostatStatus.from_dict d₂ strict
    ∧ ThermostatSettings.from_dict d₁ strict = ThermostatSettings.from_dict d₂ strict := by
  refine ⟨fun s n h => by simp [coerceInt, h], ?_, ?_⟩
  · simp only [ThermostatStatus.from_dict, parseStatusFields]
    rw [h12, h1, h2, h3, h4, h5, h6, h7, h8, h9, h10, h11, h13, h14]
  · simp only [ThermostatSettings.from_dict, parseSettingsFields]
    rw [h12, h15, h6, h16, h17, h18, h19, h20, h21, h22, h23]

/-- Witness: `claim_C5` applied to the string-carrying and integer-carrying
variants of the status and settings inputs of the tests. -/
theorem claim_C5_witness :
    ThermostatStatus.from_dict dataC5str false = ThermostatStatus.from_dict dataC5int false
    ∧ ThermostatSettings.from_dict dataC5SettingsStr false =
        ThermostatSettings.from_dict dataC5SettingsInt false :=
  ⟨(claim_C5 dataC5str dataC5int false (by decide) (by decide) (by decide)
      (by decide) (by decide) (by decide) (by decide) (by decide) (by decide)
      (by decide) (by decide) (by decide) (by decide) (by decide) (by decide)
      (by decide) (by decide) (by decide) (by decide) (by decide) (by decide)
      (by decide) (by decide)).2.1,
   (claim_C5 dataC5SettingsStr dataC5SettingsInt false (by decide) (by decide)
      (by decide) (by decide) (by decide) (by decide) (by decide) (by decide)
      (by decide) (by decide) (by decide) (by decide) (by decide) (by decide)
      (by decide) (by decide) (by decide) (by decide) (by decide) (by decide)
      (by decide) (by decide) (by decide)).2.2⟩

/-- C8: a present tenths-scaled raw integer decodes to the binary64 value
of `raw / 10`; encoding a 0.1-aligned typed value (the binary64 nearest
`k / 10`) by the multiply-by-ten-then-round rule restores exactly the raw
integer, despite binary floating-point representation — in particular the
Python float 0.3 encodes to raw 3 and 23.5 to raw 235. -/
theorem claim_C8 (k : Int) (h1 : -400 ≤ k) (h2 : k ≤ 1000) :
    decodeTenths k = fl (Rat.divInt k 10)
    ∧ encodeTenths (decodeTenths k) = k
    ∧ encodeTenths (fl (Rat.divInt 3 10)) = 3
    ∧ encodeTenths (fl (Rat.divInt 235 10)) = 235 :=
  ⟨rfl, tenths_roundtrip k h1 h2, by decide, by decide⟩

/-- Witness: `claim_C8` applied to the raw hysteresis value 3. -/
theorem claim_C8_witness :
    decodeTenths 3 = fl (Rat.divInt 3 10)
    ∧ encodeTenths (decodeTenths 3) = 3
    ∧ encodeTenths (fl (Rat.divInt 3 10)) = 3
    ∧ encodeTenths (fl (Rat.divInt 235 10)) = 235 :=
  claim_C8 3 (by decide) (by decide)

/-- C1 counterexample: `exRecord` is in range on every field (mode in the
closed set, setpoints within 5.0..35.0, hysteresis within 0.0..0.5,
name length within 1..20), yet a full encode followed by decode yields a
record differing from it both in the setpoint (23.55 is not 0.1-aligned and
lands on 23.6) and in the device identifier (which the encode excludes) —
refuting the claim that decode∘encode equals the identity on every in-range
record. -/
theorem claim_C1_counterexample :
    (1 ≤ exRecord.mode ∧ exRecord.mode ≤ 2)
    ∧ (5 ≤ exRecord.setpoint_temp ∧ exRecord.setpoint_temp ≤ 35)
    ∧ (5 ≤ exRecord.setpoint_temp_away ∧ exRecord.setpoint_temp_away ≤ 35)
    ∧ (0 ≤ exRecord.hysteresis_band ∧ exRecord.hysteresis_band ≤ Rat.divInt 1 2)
    ∧ (1 ≤ exRecord.device_name.length ∧ exRecord.device_name.length ≤ 20)
    ∧ ThermostatSettings.from_dict (exRecord.to_dict) false = .ok (exDecoded, [])
    ∧ exDecoded ≠ exRecord
    ∧ exDecoded.setpoint_temp ≠ exRecord.setpoint_temp
    ∧ exDecoded.device_id ≠ exRecord.device_id := by decide

/-- C1 (amended): for every in-range settings record whose tenths-scaled
fields are 0.1-aligned (i.e. decoded from raw tenths integers), full encode
followed by decode restores the record on every field except the excluded
device identifier, which decodes to its default; decode of an in-range
canonical raw payload followed by full encode reproduces the payload on
every key except DEVICE_ID; and an encoded payload never contains a
DEVICE_ID key. -/
theorem claim_C1 (did name : String) (m k1 k2 k3 : Int) (g : SettingFlags)
    (strict : Bool)
    (hm : 1 ≤ m ∧ m ≤ 2) (hk1 : 50 ≤ k1 ∧ k1 ≤ 350) (hk2 : 50 ≤ k2 ∧ k2 ≤ 350)
    (hk3 : 0 ≤ k3 ∧ k3 ≤ 5) (hname : 1 ≤ name.length ∧ name.length ≤ 20) :
    ThermostatSettings.from_dict
        ((⟨did, m, decodeTenths k1, decodeTenths k2, decodeTenths k3, name, g⟩ :
          ThermostatSettings).to_dict) strict =
      .ok (⟨"", m, decodeTenths k1, decodeTenths k2, decodeTenths k3, name, g⟩, [])
    ∧ ThermostatSettings.from_dict (settingsPayload did m k1 k2 k3 name g) strict =
      .ok (⟨did, m, decodeTenths k1, decodeTenths k2, decodeTenths k3, name, g⟩, [])
    ∧ (∀ key, key ≠ "DEVICE_ID" →
        ((⟨did, m, decodeTenths k1, decodeTenths k2, decodeTenths k3, name, g⟩ :
          ThermostatSettings).to_dict).lookup key =
          (settingsPayload did m k1 k2 k3 name g).lookup key)
    ∧ (∀ s : ThermostatSettings, (s.to_dict).lookup "DEVICE_ID" = none) := by
  have hrt1 : encodeTenths (decodeTenths k1) = k1 :=
    tenths_roundtrip k1 (by omega) (by omega)
  have hrt2 : encodeTenths (decodeTenths k2) = k2 :=
    tenths_roundtrip k2 (by omega) (by omega)
  have hrt3 : encodeTenths (decodeTenths k3) = k3 :=
    tenths_roundtrip k3 (by omega) (by omega)
  have hflag : ∀ b : Bool, ((cond b (1 : Int) 0) != 0) = b := by decide
  have hchecks : ∀ dv : String,
      runChecks strict (settingsChecks ⟨dv, m, k1, k2, k3, name, g⟩) = .ok [] := by
    intro dv
    cases strict <;>
      simp [settingsChecks, runChecks, hm, hk1, hk2, hk3, hname]
  have hparse2 : parseSettingsFields (settingsPayload did m k1 k2 k3 name g) =
      .ok ⟨did, m, k1, k2, k3, name, g⟩ := by
    simp [parseSettingsFields, parseSettingsAux, settingsPayload, rawIntView,
      getPrim, getStr, getFlagMap, flagView, List.lookup, coerceInt,
      SettingFlags.to_dict, SettingFlags.fromVals, flagBit, reqInt, reqStrV,
      hflag, Bind.bind, Except.bind, Pure.pure, Except.pure]
  have hparse1 : parseSettingsFields
      ((⟨did, m, decodeTenths k1, decodeTenths k2, decodeTenths k3, name, g⟩ :
        ThermostatSettings).to_dict) = .ok ⟨"", m, k1, k2, k3, name, g⟩ := by
    simp only [ThermostatSettings.to_dict, hrt1, hrt2, hrt3]
    simp [parseSettingsFields, parseSettingsAux, rawIntView,
      getPrim, getStr, getFlagMap, flagView, List.lookup, coerceInt,
      SettingFlags.to_dict, SettingFlags.fromVals, flagBit, reqInt, reqStrV,
      hflag, Bind.bind, Except.bind, Pure.pure, Except.pure]
  refine ⟨?_, ?_, ?_, fun s => rfl⟩
  · rw [fromDict_settings_eval strict hparse1, hchecks]; rfl
  · rw [fromDict_settings_eval strict hparse2, hchecks]; rfl
  · intro key hk
    have hbeq : (key == "DEVICE_ID") = false := beq_eq_false_iff_ne.mpr hk
    simp only [ThermostatSettings.to_dict, settingsPayload, hrt1, hrt2, hrt3,
      List.lookup, hbeq]

/-- Witness: `claim_C1` applied to the section 8 scenario record (AWAY
mode, setpoints 23.5/16.5, hysteresis 0.3, name "Kitchen", child lock
set). -/
theorem claim_C1_witness :
    ThermostatSettings.from_dict
        ((⟨"T01648142", 2, decodeTenths 235, decodeTenths 165, decodeTenths 3,
           "Kitchen", ⟨false, true, false, true, false⟩⟩ :
          ThermostatSettings).to_dict) false =
      .ok (⟨"", 2, decodeTenths 235, decodeTenths 165, decodeTenths 3, "Kitchen",
        ⟨false, true, false, true, false⟩⟩, [])
    ∧ (∀ s : ThermostatSettings, (s.to_dict).lookup "DEVICE_ID" = none) :=
  ⟨(claim_C1 "T01648142" "Kitchen" 2 235 165 3 ⟨false, true, false, true, false⟩
      false (by decide) (by decide) (by decide) (by decide) (by decide)).1,
   (claim_C1 "T01648142" "Kitchen" 2 235 165 3 ⟨false, true, false, true, false⟩
      false (by decide) (by decide) (by decide) (by decide) (by decide)).2.2.2⟩

/-- C9: every client setter validates its argument before any settings
patch is assembled or any request performed — an out-of-range or
wrongly-typed argument yields exactly the `AirobotError` message pinned by
the tests, and no payload is produced. -/
theorem claim_C9 (m : Int) (t ta hb : ℚ) (w : PyVal) (s : String)
    (hm : m < 1 ∨ 2 < m)
    (ht : t < 5 ∨ 35 < t)
    (hta2 : ta < 5 ∨ 35 < ta)
    (hhb : hb < 0 ∨ Rat.divInt 1 2 < hb)
    (hwstr : ∀ x, w ≠ .vstr x)
    (hwbool : ∀ b, w ≠ .vbool b)
    (hs : s.length < 1 ∨ 20 < s.length) :
    set_mode m = .error "Mode must be between 1 and 2"
    ∧ set_home_temperature t = .error "HOME temperature must be between 5.0°C and 35.0°C"
    ∧ set_away_temperature ta = .error "AWAY temperature must be between 5.0°C and 35.0°C"
    ∧ set_hysteresis_band hb = .error "Hysteresis band must be between 0.0°C and 0.5°C"
    ∧ set_device_name w = .error "Device name must be a string"
    ∧ set_device_name (.vstr s) =
        .error "Device name length must be between 1 and 20 characters"
    ∧ set_child_lock w = .error "Child lock must be a boolean"
    ∧ set_boost_mode w = .error "Boost mode must be a boolean"
    ∧ toggle_actuator_exercise w = .error "Actuator exercise disabled must be a boolean" := by
  refine ⟨by rw [set_mode, if_pos hm], by rw [set_home_temperature, if_pos ht],
    by rw [set_away_temperature, if_pos hta2],
    by rw [set_hysteresis_band, if_pos hhb],
    ?_, by rw [set_device_name, if_pos hs], ?_, ?_, ?_⟩
  · cases w with
    | vstr x => exact absurd rfl (hwstr x)
    | vint n => rfl
    | vfloat q => rfl
    | vbool b => rfl
  · cases w with
    | vbool b => exact absurd rfl (hwbool b)
    | vint n => rfl
    | vfloat q => rfl
    | vstr x => rfl
  · cases w with
    | vbool b => exact absurd rfl (hwbool b)
    | vint n => rfl
    | vfloat q => rfl
    | vstr x => rfl
  · cases w with
    | vbool b => exact absurd rfl (hwbool b)
    | vint n => rfl
    | vfloat q => rfl
    | vstr x => rfl

/-- Witness: `claim_C9` applied to the tests' invalid arguments — mode 0,
temperature 4.9, temperature 35.1, hysteresis 0.6, the integer 12345 where
a name is required, and the empty name. -/
theorem claim_C9_witness :
    set_mode 0 = .error "Mode must be between 1 and 2"
    ∧ set_home_temperature (Rat.divInt 49 10) =
        .error "HOME temperature must be between 5.0°C and 35.0°C"
    ∧ set_away_temperature (Rat.divInt 351 10) =
        .error "AWAY temperature must be between 5.0°C and 35.0°C"
    ∧ set_hysteresis_band (Rat.divInt 6 10) =
        .error "Hysteresis band must be between 0.0°C and 0.5°C"
    ∧ set_device_name (.vint 12345) = .error "Device name must be a string"
    ∧ set_device_name (.vstr "") =
        .error "Device name length must be between 1 and 20 characters"
    ∧ set_child_lock (.vint 12345) = .error "Child lock must be a boolean"
    ∧ set_boost_mode (.vint 12345) = .error "Boost mode must be a boolean"
    ∧ toggle_actuator_exercise (.vint 12345) =
        .error "Actuator exercise disabled must be a boolean" :=
  claim_C9 0 (Rat.divInt 49 10) (Rat.divInt 351 10) (Rat.divInt 6 10)
    (.vint 12345) "" (by decide) (by decide) (by decide) (by decide)
    (fun x h => nomatch h) (fun b h => nomatch h) (by decide)

/-- C10: the connection, auth and timeout errors are subclasses of
`AirobotError`, so catching `AirobotError` catches every error kind the
client raises, and `str` of an instance constructed with a message is that
message. -/
theorem claim_C10 :
    (∀ k : ExcClass, k ∈ clientRaisedClasses → isSubclass k .airobotError = true)
    ∧ isSubclass .airobotConnectionError .airobotError = true
    ∧ isSubclass .airobotAuthError .airobotError = true
    ∧ isSubclass .airobotTimeoutError .airobotError = true
    ∧ ∀ (k : ExcClass) (msg : String), AirobotException.str ⟨k, msg⟩ = msg := by
  exact ⟨by decide, by decide, by decide, by decide, fun k msg => rfl⟩

/-- Witness: `claim_C10` applied to the timeout class and a concrete
message. -/
theorem claim_C10_witness :
    isSubclass .airobotTimeoutError .airobotError = true
    ∧ AirobotException.str ⟨.airobotAuthError, "Authentication failed"⟩ =
        "Authentication failed" :=
  ⟨claim_C10.1 .airobotTimeoutError (by decide),
   claim_C10.2.2.2.2 .airobotAuthError "Authentication failed"⟩

end Airobot
